import Mathlib

/-!
Verification of the OBD-II / UDS diagnostic protocol core.

Shallow embedding of the pure protocol functions of the repository:
the DTC codec (obd/dtc/decode.py, obd/dtc/parse.py), the response
normalizer (obd/obd_parse.py), the readiness decoders
(obd/scanner.py, obd/obd2/readiness.py), the PID decoding path and the
scanner orchestrator operations (obd/scanner.py, obd/elm/elm327.py),
and the UDS client request/response path (obd/uds/client.py).

Python strings are modelled as Lean String / List Char, machine
integers as Nat, floats as Rat, raised exceptions as Except values,
and the serial adapter as an oracle function from command strings to
response lines.  Mutable scanner state (the connected flag) is passed
and returned explicitly.
-/

namespace OBD

/-- ASCII hex-digit test, the character class 0-9A-Fa-f used by the
regular expressions in obd/obd_parse.py and by int(c, 16). -/
def isHexChar (c : Char) : Bool :=
  (('0' ≤ c) && (c ≤ '9')) || (('a' ≤ c) && (c ≤ 'f')) || (('A' ≤ c) && (c ≤ 'F'))

/-- Value of one hex digit: int(c, 16) in Python; none when c is not a
hex digit (ValueError). -/
def hexVal? (c : Char) : Option Nat :=
  if ('0' ≤ c) && (c ≤ '9') then some (c.toNat - '0'.toNat)
  else if ('a' ≤ c) && (c ≤ 'f') then some (c.toNat - 'a'.toNat + 10)
  else if ('A' ≤ c) && (c ≤ 'F') then some (c.toNat - 'A'.toNat + 10)
  else none

def hexStrValAux : List Char → Nat → Option Nat
  | [], acc => some acc
  | c :: cs, acc =>
    match hexVal? c with
    | none => none
    | some v => hexStrValAux cs (acc * 16 + v)

/-- int(s, 16) for a string of hex digits; none on the empty string or
on a non-hex character (ValueError). -/
def hexStrVal? (s : List Char) : Option Nat :=
  if s.isEmpty then none else hexStrValAux s 0

/-- Uppercase-hex-digit test (0-9 or A-F), by character code. -/
def isUpperHexChar (c : Char) : Bool :=
  (48 ≤ c.toNat && c.toNat ≤ 57) || (65 ≤ c.toNat && c.toNat ≤ 70)

/-- Python str.upper on one ASCII character. -/
def pyUpper (s : String) : String := String.mk (s.data.map Char.toUpper)

/-! ## DTC codec: obd/dtc/decode.py -/

/-- decode_dtc_bytes from obd/dtc/decode.py: length check, first
nibble int-parse inside try/except, prefix dictionary keyed by the top
two bits (with default "P"), second character from the low two bits,
and the remaining three characters uppercased with no further
validation. -/
def decode_dtc_bytes (hex_bytes : String) : String :=
  if hex_bytes.data.length = 4 then
    match hexVal? hex_bytes.data.headI with
    | none => "INVALID:" ++ hex_bytes
    | some first_nibble =>
      let type_bits := (first_nibble >>> 2) &&& 3
      let pfx := if type_bits = 0 then "P" else if type_bits = 1 then "C"
                 else if type_bits = 2 then "B" else if type_bits = 3 then "U" else "P"
      let second_char := toString (first_nibble &&& 3)
      let rest := String.mk ((hex_bytes.data.drop 1).map Char.toUpper)
      pfx ++ second_char ++ rest
  else "INVALID:" ++ hex_bytes

/-- Reference decoder written from the wording of claim C1: a result
is produced only when the input is exactly 4 characters and every
character is a hex digit; otherwise the invalid marker is returned. -/
def claimC1_decode (s : String) : String :=
  if s.data.length = 4 && s.data.all isHexChar then
    let v := (hexVal? s.data.headI).getD 0
    ["P", "C", "B", "U"].getD (v / 4) "P" ++ toString (v % 4)
      ++ String.mk ((s.data.drop 1).map Char.toUpper)
  else "INVALID:" ++ s

/-- Reference decoder for the amended claim C1: only the first
character must be a hex digit; the last three characters pass through
uppercased whether or not they are hex digits. -/
def claimC1_amended_decode (s : String) : String :=
  if s.data.length = 4 && isHexChar s.data.headI then
    let v := (hexVal? s.data.headI).getD 0
    ["P", "C", "B", "U"].getD (v / 4) "P" ++ toString (v % 4)
      ++ String.mk ((s.data.drop 1).map Char.toUpper)
  else "INVALID:" ++ s

/-! ## DTC response parser: obd/dtc/parse.py -/

/-- Python str.replace(pat, "", 1): remove the leftmost occurrence of
pat, if any. -/
def removeFirstSub : List Char → List Char → List Char
  | [], _ => []
  | c :: cs, pat =>
    if pat.isPrefixOf (c :: cs) then (c :: cs).drop pat.length
    else c :: removeFirstSub cs pat

/-- The chunking loop of parse_dtc_response: consume 4 characters at a
time; a trailing group shorter than 4 ends the scan; an all-zero group
is skipped; a decoded code starting with the invalid marker is
dropped. -/
def dtcChunksSrc : List Char → List String
  | c0 :: c1 :: c2 :: c3 :: rest =>
    if [c0, c1, c2, c3] = ['0', '0', '0', '0'] then dtcChunksSrc rest
    else
      let code := decode_dtc_bytes (String.mk [c0, c1, c2, c3])
      if ("INVALID".data).isPrefixOf code.data then dtcChunksSrc rest
      else code :: dtcChunksSrc rest
  | _ => []

/-- parse_dtc_response from obd/dtc/parse.py: mode-to-echo-prefix
dictionary with default "43", space removal and uppercasing, removal
of the first occurrence of the echo pair anywhere in the string, then
the 4-character chunking loop. -/
def parse_dtc_response (response : String) (mode : String) : List String :=
  if response.data.isEmpty then []
  else
    let pfx := if mode == "03" then "43" else if mode == "07" then "47"
               else if mode == "0A" then "4A" else "43"
    let resp := (response.data.filter (fun c => c ≠ ' ')).map Char.toUpper
    dtcChunksSrc (removeFirstSub resp pfx.data)

/-- The chunking pass written from the wording of claim C2: 4
characters at a time, all-zero groups skipped, trailing short group
discarded, each remaining group decoded. -/
def claimC2_chunks : List Char → List String
  | c0 :: c1 :: c2 :: c3 :: rest =>
    if [c0, c1, c2, c3] = ['0', '0', '0', '0'] then claimC2_chunks rest
    else decode_dtc_bytes (String.mk [c0, c1, c2, c3]) :: claimC2_chunks rest
  | _ => []

/-- Reference parser written from the wording of claim C2: the
mode-specific echo pair is stripped only when it is present at the
start of the payload. -/
def claimC2_parse (response : String) (mode : String) : List String :=
  let pfx := if mode == "03" then "43" else if mode == "07" then "47" else "4A"
  let resp := if pfx.data.isPrefixOf response.data then response.data.drop 2
              else response.data
  claimC2_chunks resp

/-- Reference parser for the amended claim C2: the echo pair is
removed at its first occurrence anywhere in the payload, not only at
the start. -/
def claimC2_amended_parse (response : String) (mode : String) : List String :=
  let pfx := if mode == "03" then "43" else if mode == "07" then "47" else "4A"
  claimC2_chunks (removeFirstSub response.data pfx.data)

/-! ## Response normalizer: obd/obd_parse.py -/

/-- The noise-line markers NOISE_PREFIXES of obd/obd_parse.py. -/
def noiseMarkers : List String :=
  ["SEARCHING", "BUS INIT", "UNABLE TO CONNECT", "STOPPED", "NO DATA", "CAN ERROR",
   "BUFFER FULL", "BUS BUSY", "BUS ERROR", "DATA ERROR", "?", "ELM", "OK"]

/-- Python str.strip: drop leading and trailing whitespace. -/
def pyStrip (s : String) : String :=
  String.mk (((s.data.dropWhile Char.isWhitespace).reverse.dropWhile
    Char.isWhitespace).reverse)

/-- The noise filter of obd/obd_parse.py: the stripped, uppercased
line starts with one of the noise markers. -/
def isNoise (line : String) : Bool :=
  let up := (pyStrip line).data.map Char.toUpper
  noiseMarkers.any (fun p => p.data.isPrefixOf up)

/-- Python str.split with no argument: split on whitespace runs,
returning only nonempty tokens.  cur holds the characters of the
current token in reverse. -/
def splitWSAux : List Char → List Char → List (List Char)
  | [], cur => if cur.isEmpty then [] else [cur.reverse]
  | c :: cs, cur =>
    if c = ' ' then
      if cur.isEmpty then splitWSAux cs [] else cur.reverse :: splitWSAux cs []
    else splitWSAux cs (c :: cur)

/-- normalize_tokens from obd/obd_parse.py: delete every character
that is neither a hex digit nor a space, split the remainder on
whitespace, and uppercase the tokens. -/
def normalize_tokens (line : String) : List String :=
  let clean := line.data.filter (fun c => isHexChar c || c = ' ')
  (splitWSAux clean []).map (fun t => String.mk (t.map Char.toUpper))

/-- Python " ".join on token character lists. -/
def joinSp : List (List Char) → List Char
  | [] => []
  | [t] => t
  | t :: t2 :: ts => t ++ ' ' :: joinSp (t2 :: ts)

/-- The HEXISH_RE recheck of group_by_ecu: the joined token string is
nonempty and made only of hex digits and spaces. -/
def hexishOk (tokens : List String) : Bool :=
  let joined := joinSp (tokens.map String.data)
  !joined.isEmpty && joined.all (fun c => isHexChar c || c = ' ')

/-- Python dict insertion-ordered setdefault(k, []).append(v). -/
def upsertAppend (m : List (String × List (List String))) (k : String)
    (v : List String) : List (String × List (List String)) :=
  match m with
  | [] => [(k, [v])]
  | (k', vs) :: rest =>
    if k' == k then (k', vs ++ [v]) :: rest else (k', vs) :: upsertAppend rest k v

/-- group_by_ecu from obd/obd_parse.py: skip empty and noise lines,
tokenize, skip lines with no tokens, apply the HEXISH_RE recheck, and
bucket the token list under its first token (or under NOHDR when
headers are off). -/
def group_by_ecu (lines : List String) (headers_on : Bool) :
    List (String × List (List String)) :=
  lines.foldl (fun out ln =>
    if ln.data.isEmpty then out
    else if isNoise ln then out
    else
      let tokens := normalize_tokens ln
      if tokens.isEmpty then out
      else if !hexishOk tokens then out
      else upsertAppend out (if headers_on then tokens.headI else "NOHDR") tokens) []

/-- Reference grouping for the amended claim C8: identical to
group_by_ecu except that the all-hex recheck is absent — a surviving
line contributes a bucket entry whenever it has at least one token
after the non-hex characters are deleted. -/
def claimC8_group (lines : List String) (headers_on : Bool) :
    List (String × List (List String)) :=
  lines.foldl (fun out ln =>
    if ln.data.isEmpty then out
    else if isNoise ln then out
    else
      let tokens := normalize_tokens ln
      if tokens.isEmpty then out
      else upsertAppend out (if headers_on then tokens.headI else "NOHDR") tokens) []

/-- payload_from_tokens from obd/obd_parse.py: drop the ECU-id token
when headers are on, then drop the next token when it parses as a
plausible length byte (positive and at most the count of remaining
tokens). -/
def payload_from_tokens (tokens : List String) (headers_on : Bool) : List String :=
  let rest := if headers_on then tokens.drop 1 else tokens
  match rest with
  | [] => []
  | t :: ts =>
    match hexStrVal? t.data with
    | none => t :: ts
    | some ln => if 0 < ln ∧ ln ≤ ts.length then ts else t :: ts

/-- merge_payloads from obd/obd_parse.py: concatenate the per-frame
payloads of each ECU, in arrival order. -/
def merge_payloads (grouped : List (String × List (List String))) (headers_on : Bool) :
    List (String × List String) :=
  grouped.map (fun p =>
    (p.1, (p.2.map (fun msg => payload_from_tokens msg headers_on)).flatten))

/-- The inner scanning loop of find_obd_response_payload: return the
payload from the first index at which pat occurs, or none. -/
def findFromIdx : List String → List String → Option (List String)
  | [], pat => if pat.isEmpty then some [] else none
  | x :: xs, pat =>
    if pat.isPrefixOf (x :: xs) then some (x :: xs) else findFromIdx xs pat

/-- Python merged_payloads.get(ecu, []). -/
def lookupPayload (merged : List (String × List String)) (e : String) : List String :=
  match merged.find? (fun p => p.1 == e) with
  | some p => p.2
  | none => []

/-- The outer ECU loop of find_obd_response_payload. -/
def searchEcusSrc : List String → List (String × List String) → List String →
    Option (String × List String)
  | [], _, _ => none
  | e :: es, merged, pat =>
    match findFromIdx (lookupPayload merged e) pat with
    | some suffix => some (e, suffix)
    | none => searchEcusSrc es merged pat

/-- find_obd_response_payload from obd/obd_parse.py: optional
ECU-preference reordering (preferred ECUs present in the map first, in
the given order, then the remaining ECUs in map order), then the first
prefix match wins. -/
def find_obd_response_payload (merged : List (String × List String))
    (expectedPfx : List String) (preferEcus : List String) :
    Option (String × List String) :=
  let ecuOrder := merged.map Prod.fst
  let order :=
    if preferEcus.isEmpty then ecuOrder
    else
      let preferred := preferEcus.filter (fun e => ecuOrder.contains e)
      preferred ++ ecuOrder.filter (fun e => !preferred.contains e)
  searchEcusSrc order merged expectedPfx

/-- First index at which pat occurs in payload, written from the
wording of claim C7. -/
def claimC7_firstMatchIdx (payload pat : List String) : Option Nat :=
  (List.range (payload.length + 1)).find? (fun i => pat.isPrefixOf (payload.drop i))

/-- Reference search written from the wording of claim C7: search the
preferred ECUs first in the given order, then the remaining ECUs in
original map order; for the first ECU whose payload contains the
prefix, return that ECU with its payload from the first occurrence
through the end; return nothing when no ECU matches. -/
def claimC7_find (merged : List (String × List String)) (expectedPfx : List String)
    (preferEcus : List String) : Option (String × List String) :=
  let keys := merged.map Prod.fst
  let preferred := preferEcus.filter (fun e => keys.contains e)
  let order :=
    if preferEcus.isEmpty then keys
    else preferred ++ keys.filter (fun e => !preferred.contains e)
  order.findSome? (fun e =>
    (claimC7_firstMatchIdx (lookupPayload merged e) expectedPfx).map
      (fun i => (e, (lookupPayload merged e).drop i)))

/-! ## Readiness decoders: obd/scanner.py and obd/obd2/readiness.py -/

/-- ReadinessStatus from obd/scanner.py (also obd/obd2/models.py). -/
structure ReadinessStatus where
  monitor_name : String
  available : Bool
  complete : Bool
deriving DecidableEq, Repr

/-- bool(x & (1 << i)) on a status byte. -/
def bitSet (x i : Nat) : Bool := x &&& (1 <<< i) != 0

/-- The MIL entry, identical in both decoders: always available,
complete when the MIL bit (bit 7 of A) is off. -/
def milEntry (A : Nat) : String × ReadinessStatus :=
  ("MIL (Check Engine Light)",
    ReadinessStatus.mk "MIL (Check Engine Light)" true (! bitSet A 7))

/-- A continuous-monitor entry, identical in both decoders: supported
from a B bit, incomplete from the same C bit, complete forced to false
when unsupported. -/
def contEntry (B C : Nat) (name : String) (bit : Nat) : String × ReadinessStatus :=
  let available := bitSet B bit
  let incomplete := bitSet C bit
  (name, ReadinessStatus.mk name available (if available then ! incomplete else false))

/-- A non-continuous or diesel entry as built by
OBDScanner.read_readiness in obd/scanner.py: available is hard-coded
true, incomplete comes from a D bit. -/
def scEntryNoncont (D : Nat) (name : String) (dbit : Nat) : String × ReadinessStatus :=
  let incomplete := bitSet D dbit
  (name, ReadinessStatus.mk name true (! incomplete))

/-- A non-continuous or diesel entry as built by
ReadinessMixin.read_readiness in obd/obd2/readiness.py: supported from
a bit of the given source byte (B or C), incomplete from a D bit,
complete forced to false when unsupported. -/
def mxEntryNoncont (S D : Nat) (name : String) (bit dbit : Nat) :
    String × ReadinessStatus :=
  let supported := bitSet S bit
  let incomplete := bitSet D dbit
  (name, ReadinessStatus.mk name supported (if supported then ! incomplete else false))

/-- The monitor map built by OBDScanner.read_readiness
(obd/scanner.py) from the four status bytes, in dict insertion
order. -/
def scanner_readiness_monitors (A B C D : Nat) : List (String × ReadinessStatus) :=
  milEntry A ::
    (if ! bitSet B 3 then
      [contEntry B C "Misfire" 0, contEntry B C "Fuel System" 1,
       contEntry B C "Components" 2,
       scEntryNoncont D "Catalyst" 0, scEntryNoncont D "Heated Catalyst" 1,
       scEntryNoncont D "Evaporative System" 2, scEntryNoncont D "Secondary Air" 3,
       scEntryNoncont D "A/C Refrigerant" 4, scEntryNoncont D "Oxygen Sensor" 5,
       scEntryNoncont D "Oxygen Sensor Heater" 6, scEntryNoncont D "EGR System" 7]
    else
      [scEntryNoncont D "NMHC Catalyst" 0, scEntryNoncont D "NOx/SCR Aftertreatment" 1,
       scEntryNoncont D "Boost Pressure" 3, scEntryNoncont D "Exhaust Gas Sensor" 5,
       scEntryNoncont D "PM Filter" 6, scEntryNoncont D "EGR/VVT System" 7])

/-- The monitor map built by ReadinessMixin.read_readiness
(obd/obd2/readiness.py) from the four status bytes, in dict insertion
order. -/
def mixin_readiness_monitors (A B C D : Nat) : List (String × ReadinessStatus) :=
  milEntry A ::
    (if ! bitSet B 3 then
      [contEntry B C "Misfire" 0, contEntry B C "Fuel System" 1,
       contEntry B C "Components" 2,
       mxEntryNoncont B D "Catalyst" 4 0, mxEntryNoncont B D "Heated Catalyst" 5 1,
       mxEntryNoncont B D "Evaporative System" 6 2, mxEntryNoncont B D "Secondary Air" 7 3,
       mxEntryNoncont C D "A/C Refrigerant" 3 4, mxEntryNoncont C D "Oxygen Sensor" 4 5,
       mxEntryNoncont C D "Oxygen Sensor Heater" 5 6, mxEntryNoncont C D "EGR System" 6 7]
    else
      [mxEntryNoncont C D "NMHC Catalyst" 0 0, mxEntryNoncont C D "NOx/SCR Aftertreatment" 1 1,
       mxEntryNoncont C D "Boost Pressure" 3 3, mxEntryNoncont C D "Exhaust Gas Sensor" 5 5,
       mxEntryNoncont C D "PM Filter" 6 6, mxEntryNoncont C D "EGR/VVT System" 7 7])

/-- The shared payload-to-bytes step of both read_readiness
implementations: a payload of at least six tokens beginning 41 01
yields the four status bytes parsed from tokens 2..5, or nothing on a
parse failure. -/
def readinessBytes? (payload : List String) : Option (Nat × Nat × Nat × Nat) :=
  if payload.length < 6 then none
  else
    match hexStrVal? (payload.getD 2 "").data, hexStrVal? (payload.getD 3 "").data,
        hexStrVal? (payload.getD 4 "").data, hexStrVal? (payload.getD 5 "").data with
    | some A, some B, some C, some D => some (A, B, C, D)
    | _, _, _, _ => none

/-- OBDScanner.read_readiness after a successful query, at payload
level. -/
def scanner_readiness_payload (payload : List String) : List (String × ReadinessStatus) :=
  match readinessBytes? payload with
  | some (A, B, C, D) => scanner_readiness_monitors A B C D
  | none => []

/-- ReadinessMixin.read_readiness after a successful query, at payload
level. -/
def mixin_readiness_payload (payload : List String) : List (String × ReadinessStatus) :=
  match readinessBytes? payload with
  | some (A, B, C, D) => mixin_readiness_monitors A B C D
  | none => []

/-! ## Adapter channel and scanner orchestrator: obd/elm/elm327.py and
obd/scanner.py.  The serial adapter is an oracle from command strings
to either response lines or a transport error. -/

/-- Decidable equality for Except results, used to evaluate the
closed theorems. -/
def exceptDecEq {e a : Type} [DecidableEq e] [DecidableEq a] :
    DecidableEq (Except e a)
  | .error x, .error y => decidable_of_iff (x = y) (by simp)
  | .error _, .ok _ => isFalse (by simp)
  | .ok _, .error _ => isFalse (by simp)
  | .ok x, .ok y => decidable_of_iff (x = y) (by simp)

instance {e a : Type} [DecidableEq e] [DecidableEq a] : DecidableEq (Except e a) :=
  exceptDecEq

/-- Transport-level failures of ELM327.send_raw_lines:
DeviceDisconnectedError or CommunicationError. -/
inductive ChanErr
  | disconnected
  | comm
deriving DecidableEq, Repr

/-- The adapter channel as an oracle: send_obd_lines behaviour per
command. -/
def Fetch : Type := String → Except ChanErr (List String)

/-- Scanner-level error kinds of obd/scanner.py:
NotConnectedError, ConnectionLostError, ScannerError. -/
inductive ScanErr
  | notConnected
  | connectionLost
  | scannerError
deriving DecidableEq, Repr

/-- Python " ".join(lines).upper() as a character list. -/
def pyJoinUpper (lines : List String) : List Char :=
  (joinSp (lines.map String.data)).map Char.toUpper

/-- Python substring membership: pat in s. -/
def containsSubstr : List Char → List Char → Bool
  | [], pat => pat.isEmpty
  | c :: cs, pat => pat.isPrefixOf (c :: cs) || containsSubstr cs pat

/-- The error-token scan of OBDScanner.read_dtcs: any of NO DATA,
UNABLE TO CONNECT, ERROR or ? occurring in the joined uppercased
response. -/
def errTokenPresent (joined : List Char) : Bool :=
  ["NO DATA", "UNABLE TO CONNECT", "ERROR", "?"].any
    (fun e => containsSubstr joined e.data)

/-- Keep only the uppercase hex digits of the joined response, as in
the hex_only comprehension of read_dtcs and in send_obd. -/
def hexOnly (l : List Char) : List Char :=
  l.filter (fun c => ("0123456789ABCDEF".data).contains c)

/-- ELM327.send_obd from obd/elm/elm327.py: transport errors map to
the DISCONNECTED / ERROR sentinels, error tokens map to their
sentinels, otherwise the response is reduced to its hex digits. -/
def send_obd (fetch : Fetch) (command : String) : String :=
  match fetch command with
  | .error .disconnected => "DISCONNECTED"
  | .error .comm => "ERROR"
  | .ok lines =>
    let up := pyJoinUpper lines
    if containsSubstr up ("NO DATA".data) then "NO DATA"
    else if containsSubstr up ("UNABLE TO CONNECT".data) then "NO CONNECT"
    else if containsSubstr up ("ERROR".data) then "ERROR"
    else if containsSubstr up ("?".data) then "INVALID"
    else String.mk (hexOnly up)

/-- OBDScanner._obd_query_payload: check connection (the connected
flag and the adapter flag, as in the is_connected property), fetch raw
lines, map transport errors to scanner errors (marking the scanner
disconnected before a ConnectionLostError), then group, merge and
search by expected prefix with no ECU preference.  Returns the new
connected flag with the outcome. -/
def obd_query_payload (connected elmUp : Bool) (fetch : Fetch) (command : String)
    (expectedPfx : List String) (headers_on : Bool) :
    Bool × Except ScanErr (Option (String × List String)) :=
  let c0 := connected && elmUp
  if !c0 then (c0, .error .notConnected)
  else
    match fetch command with
    | .error .disconnected => (false, .error .connectionLost)
    | .error .comm => (c0, .error .scannerError)
    | .ok lines =>
      let grouped := group_by_ecu lines headers_on
      let merged := merge_payloads grouped headers_on
      (c0, .ok (find_obd_response_payload merged expectedPfx []))

/-! ### PID decoding: obd/pids/decode.py with a spec-modelled catalog -/

/-- A PID catalog entry: name, unit, byte width and formula. -/
structure OBDPid where
  name : String
  unit : String
  bytes : Nat
  formula : Nat → Nat → ℚ

/-- Modelled from the spec: the PID catalog obd/pids/standard_mode01.py
is not under src/.  Per the spec each known PID declares a byte width
(1 or 2) and a formula over the raw bytes; for PID 0C the spec names
the standard RPM formula over bytes A and B.  Only the entry needed by
the claims is modelled. -/
def PIDS : List (String × OBDPid) :=
  [("0C", OBDPid.mk "Engine RPM" "rpm" 2 (fun a b => ((256 * a + b : ℚ)) / 4))]

/-- decode_pid_response from obd/pids/decode.py: strip and uppercase
the PID, look it up, parse one or two leading bytes of the hex data
depending on the declared width (failing softly on short data or a
parse error), and apply the formula. -/
def decode_pid_response (pid : String) (hex_data : String) : Option ℚ :=
  let pid := pyUpper (pyStrip pid)
  match PIDS.find? (fun p => p.1 == pid) with
  | none => none
  | some p =>
    if p.2.bytes = 1 ∧ 2 ≤ hex_data.data.length then
      match hexStrVal? (hex_data.data.take 2) with
      | none => none
      | some a => some (p.2.formula a 0)
    else if p.2.bytes = 2 ∧ 4 ≤ hex_data.data.length then
      match hexStrVal? (hex_data.data.take 2), hexStrVal? ((hex_data.data.drop 2).take 2) with
      | some a, some b => some (p.2.formula a b)
      | _, _ => none
    else none

/-- Python round(x, 2) on an exact rational (round-half-to-even and
round-half-up agree everywhere the claims evaluate it, away from
ties). -/
def round2 (q : ℚ) : ℚ := ((Rat.floor (q * 100 + 1 / 2) : ℤ) : ℚ) / 100

/-- SensorReading from obd/scanner.py, without the wall-clock
timestamp field. -/
structure SensorReadingE where
  name : String
  value : ℚ
  unit : String
  pid : String
  raw_hex : String
deriving DecidableEq, Repr

/-- OBDScanner.read_pid: check connection, uppercase and look up the
PID, query Mode 01 with expected prefix 41 PID, drop the two echo
tokens, join the remaining tokens into the data hex string, decode,
and round the value to 2 decimals. -/
def read_pid (connected elmUp : Bool) (fetch : Fetch) (headers_on : Bool)
    (pid : String) : Bool × Except ScanErr (Option SensorReadingE) :=
  let c0 := connected && elmUp
  if !c0 then (c0, .error .notConnected)
  else
    let pid := pyUpper pid
    match PIDS.find? (fun p => p.1 == pid) with
    | none => (c0, .ok none)
    | some pinfo =>
      match obd_query_payload c0 elmUp fetch ("01" ++ pid) ["41", pid] headers_on with
      | (s, .error e) => (s, .error e)
      | (s, .ok none) => (s, .ok none)
      | (s, .ok (some (_, payload))) =>
        if payload.length < 2 then (s, .ok none)
        else
          let data_hex := String.join (payload.drop 2)
          match decode_pid_response pid data_hex with
          | none => (s, .ok none)
          | some v =>
            (s, .ok (some (SensorReadingE.mk pinfo.2.name (round2 v) pinfo.2.unit
              pid data_hex)))

/-- The adapter behaviour of the claim C3 scenario: command 010C is
answered by one CAN line and the prompt. -/
def c3Fetch : Fetch := fun c =>
  if c == "010C" then .ok ["7E8 06 41 0C 1A F8 00 00", ">"] else .ok []

/-! ### DTC reading: OBDScanner.read_dtcs of obd/scanner.py -/

/-- DiagnosticCode from obd/scanner.py, without the timestamp field. -/
structure DtcCode where
  code : String
  description : String
  status : String
deriving DecidableEq, Repr

/-- The mode 03 append loop of OBDScanner.read_dtcs: every parsed code
is appended, with no deduplication. -/
def dtcEntriesFromCodes (desc : String → String) (st : String)
    (codes : List String) : List DtcCode :=
  codes.map (fun c => DtcCode.mk c (desc c) st)

/-- The mode 07 / mode 0A append loop of OBDScanner.read_dtcs: a code
is appended only when no entry with that code exists yet. -/
def addIfNew (desc : String → String) (st : String) :
    List DtcCode → List String → List DtcCode
  | acc, [] => acc
  | acc, c :: cs =>
    if acc.any (fun d => d.code == c) then addIfNew desc st acc cs
    else addIfNew desc st (acc ++ [DtcCode.mk c (desc c) st]) cs

/-- OBDScanner.read_dtcs from obd/scanner.py: query modes 03, 07 and
0A in that order over raw lines; a DISCONNECTED token or a transport
disconnection marks the scanner disconnected and aborts with
ConnectionLost; a CommunicationError aborts with ScannerError; a
response containing an error token contributes no codes; mode 03
codes are appended unconditionally, modes 07 and 0A deduplicate
against everything already collected.  Returns the new connected flag,
the commands sent, and the outcome. -/
def scanner_read_dtcs (desc : String → String) (connected elmUp : Bool)
    (fetch : Fetch) : Bool × List String × Except ScanErr (List DtcCode) :=
  let c0 := connected && elmUp
  if !c0 then (c0, [], .error .notConnected)
  else
    match fetch "03" with
    | .error .disconnected => (false, ["03"], .error .connectionLost)
    | .error .comm => (c0, ["03"], .error .scannerError)
    | .ok lines3 =>
      let j3 := pyJoinUpper lines3
      if containsSubstr j3 ("DISCONNECTED".data) then (false, ["03"], .error .connectionLost)
      else
        let dtcs1 := if errTokenPresent j3 then []
          else dtcEntriesFromCodes desc "stored"
            (parse_dtc_response (String.mk (hexOnly j3)) "03")
        match fetch "07" with
        | .error .disconnected => (false, ["03", "07"], .error .connectionLost)
        | .error .comm => (c0, ["03", "07"], .error .scannerError)
        | .ok lines7 =>
          let j7 := pyJoinUpper lines7
          if containsSubstr j7 ("DISCONNECTED".data) then
            (false, ["03", "07"], .error .connectionLost)
          else
            let dtcs2 := if errTokenPresent j7 then dtcs1
              else addIfNew desc "pending" dtcs1
                (parse_dtc_response (String.mk (hexOnly j7)) "07")
            match fetch "0A" with
            | .error .disconnected => (false, ["03", "07", "0A"], .error .connectionLost)
            | .error .comm => (c0, ["03", "07", "0A"], .error .scannerError)
            | .ok linesA =>
              let jA := pyJoinUpper linesA
              if containsSubstr jA ("DISCONNECTED".data) then
                (false, ["03", "07", "0A"], .error .connectionLost)
              else
                let dtcs3 := if errTokenPresent jA then dtcs2
                  else addIfNew desc "permanent" dtcs2
                    (parse_dtc_response (String.mk (hexOnly jA)) "0A")
                (c0, ["03", "07", "0A"], .ok dtcs3)

/-- The codes one mode contributes in a completed read_dtcs run: empty
on a transport error, a DISCONNECTED token or an error token,
otherwise the parsed codes of the hex-filtered joined response. -/
def mode_codes (fetch : Fetch) (mode : String) : List String :=
  match fetch mode with
  | .error _ => []
  | .ok lines =>
    let j := pyJoinUpper lines
    if containsSubstr j ("DISCONNECTED".data) then []
    else if errTokenPresent j then []
    else parse_dtc_response (String.mk (hexOnly j)) mode

/-- The adapter behaviour of the C5 counterexample: the stored-DTC
response repeats the same code; pending and permanent report NO
DATA. -/
def c5Fetch : Fetch := fun c =>
  if c == "03" then .ok ["4301330133"] else .ok ["NO DATA"]

/-- OBDScanner.clear_dtcs from obd/scanner.py: send Mode 04 through
send_obd; the DISCONNECTED sentinel marks the scanner disconnected and
raises ConnectionLost; otherwise success is the presence of the 44
acknowledgement in the uppercased response. -/
def clear_dtcs (connected elmUp : Bool) (fetch : Fetch) : Bool × Except ScanErr Bool :=
  let c0 := connected && elmUp
  if !c0 then (c0, .error .notConnected)
  else
    let response := send_obd fetch "04"
    if response == "DISCONNECTED" then (false, .error .connectionLost)
    else (c0, .ok (containsSubstr (response.data.map Char.toUpper) ("44".data)))

/-- OBDScanner.read_readiness from obd/scanner.py: query 0101 with
expected prefix 41 01 and decode the payload bytes (empty map when the
query finds nothing, the payload is short, or a byte fails to
parse). -/
def scanner_read_readiness (connected elmUp : Bool) (fetch : Fetch)
    (headers_on : Bool) : Bool × Except ScanErr (List (String × ReadinessStatus)) :=
  let c0 := connected && elmUp
  if !c0 then (c0, .error .notConnected)
  else
    match obd_query_payload c0 elmUp fetch "0101" ["41", "01"] headers_on with
    | (s, .error e) => (s, .error e)
    | (s, .ok none) => (s, .ok [])
    | (s, .ok (some (_, payload))) => (s, .ok (scanner_readiness_payload payload))

/-- OBDScanner.get_mil_status from obd/scanner.py. -/
def get_mil_status (connected elmUp : Bool) (fetch : Fetch) (headers_on : Bool) :
    Bool × Except ScanErr (Bool × Nat) :=
  let c0 := connected && elmUp
  if !c0 then (c0, .error .notConnected)
  else
    match obd_query_payload c0 elmUp fetch "0101" ["41", "01"] headers_on with
    | (s, .error e) => (s, .error e)
    | (s, .ok none) => (s, .ok (false, 0))
    | (s, .ok (some (_, payload))) =>
      if payload.length < 3 then (s, .ok (false, 0))
      else
        match hexStrVal? (payload.getD 2 "").data with
        | none => (s, .ok (false, 0))
        | some a => (s, .ok (bitSet a 7, a &&& 0x7F))

/-- The scanner operations modelled for claim C9. -/
inductive ScannerOp
  | queryPayload (command : String) (pfx : List String)
  | readPid (pid : String)
  | readDtcs
  | clearDtcs
  | readReadiness
  | getMilStatus

/-- Uniform result type over the modelled scanner operations. -/
inductive OpVal
  | payload (r : Option (String × List String))
  | reading (r : Option SensorReadingE)
  | dtcs (r : List DtcCode)
  | cleared (r : Bool)
  | readiness (r : List (String × ReadinessStatus))
  | mil (r : Bool × Nat)
deriving DecidableEq, Repr

/-- Run one modelled scanner operation against an adapter behaviour,
returning the new connected flag and the outcome. -/
def runOp (op : ScannerOp) (desc : String → String) (connected elmUp : Bool)
    (headers_on : Bool) (fetch : Fetch) : Bool × Except ScanErr OpVal :=
  match op with
  | .queryPayload cmd pfx =>
    let r := obd_query_payload connected elmUp fetch cmd pfx headers_on
    (r.1, r.2.map OpVal.payload)
  | .readPid pid =>
    let r := read_pid connected elmUp fetch headers_on pid
    (r.1, r.2.map OpVal.reading)
  | .readDtcs =>
    let r := scanner_read_dtcs desc connected elmUp fetch
    (r.1, r.2.2.map OpVal.dtcs)
  | .clearDtcs =>
    let r := clear_dtcs connected elmUp fetch
    (r.1, r.2.map OpVal.cleared)
  | .readReadiness =>
    let r := scanner_read_readiness connected elmUp fetch headers_on
    (r.1, r.2.map OpVal.readiness)
  | .getMilStatus =>
    let r := get_mil_status connected elmUp fetch headers_on
    (r.1, r.2.map OpVal.mil)

/-! ## UDS client: obd/uds/client.py over spec-modelled service helpers -/

/-- Failure kinds of the UDS client: UdsResponseError and
UdsNegativeResponse (carrying service id and NRC). -/
inductive UdsErr
  | responseError
  | negativeResponse (service : Nat) (nrc : Nat)
deriving DecidableEq, Repr

/-- Modelled from the spec: obd/uds/services.py is not under src/.
build_request prepends the service id byte to the data. -/
def udsBuildRequest (service_id : Nat) (data : List Nat) : List Nat :=
  service_id :: data

/-- Modelled from the spec: obd/uds/services.py is not under src/.
is_negative_response checks for the leading byte 0x7F. -/
def udsIsNegativeResponse (response : List Nat) : Bool :=
  response.head? == some 0x7F

/-- Modelled from the spec: obd/uds/services.py is not under src/.
A negative response's second byte is the original service id and its
third byte is the NRC. -/
def udsParseNegative (response : List Nat) : Nat × Nat :=
  (response.getD 1 0, response.getD 2 0)

/-- Modelled from the spec: obd/uds/services.py is not under src/.
The positive-response service id is the requested id plus 0x40. -/
def udsPositiveResponse (service_id : Nat) : Nat := service_id + 0x40

/-- UdsClient._send_and_expect from obd/uds/client.py, with the
transport as an oracle from request bytes to response bytes and the
configured flag threaded explicitly: auto-configuration on first use,
empty response and unexpected positive service id raise
UdsResponseError, a negative response raises UdsNegativeResponse with
the parsed service id and NRC. -/
def uds_send_and_expect (configured auto_configure : Bool)
    (send : List Nat → List Nat) (service_id : Nat) (data : List Nat) :
    Bool × Except UdsErr (List Nat) :=
  let configured := if auto_configure && !configured then true else configured
  let request := udsBuildRequest service_id data
  let response := send request
  if response.isEmpty then (configured, .error .responseError)
  else if udsIsNegativeResponse response then
    let p := udsParseNegative response
    (configured, .error (.negativeResponse p.1 p.2))
  else if response.headI ≠ udsPositiveResponse service_id then
    (configured, .error .responseError)
  else (configured, .ok response)

theorem hexVal?_isSome_iff (c : Char) : (hexVal? c).isSome = isHexChar c := by
  unfold hexVal? isHexChar
  split_ifs with h1 h2 h3 <;> simp_all

theorem hexVal?_lt_16 {c : Char} {v : Nat} (h : hexVal? c = some v) : v < 16 := by
  unfold hexVal? at h
  split_ifs at h with h1 h2 h3 <;> simp_all
  · have a1 : (48 : Nat) ≤ c.toNat := h1.1
    have a2 : c.toNat ≤ 57 := h1.2
    omega
  · have a1 : (97 : Nat) ≤ c.toNat := h2.1
    have a2 : c.toNat ≤ 102 := h2.2
    omega
  · have a1 : (65 : Nat) ≤ c.toNat := h3.1
    have a2 : c.toNat ≤ 70 := h3.2
    omega

theorem isHexChar_headI_of_hexVal?_some {c : Char} {v : Nat} (h : hexVal? c = some v) :
    isHexChar c = true := by
  rw [← hexVal?_isSome_iff, h]
  rfl

/-- Claim C1 counterexample: on input "01G3" (length 4, containing the
non-hex character 'G' in a trailing position) decode_dtc_bytes returns
"P01G3", not the invalid marker the claim requires: the code validates
only the first character. -/
theorem c1_counterexample :
    decode_dtc_bytes "01G3" = "P01G3" ∧
    claimC1_decode "01G3" = "INVALID:01G3" ∧
    decode_dtc_bytes "01G3" ≠ claimC1_decode "01G3" := by
  refine ⟨by decide, by decide, by decide⟩

/-- Amended claim C1: decode_dtc_bytes equals the reference definition
in which only the hex-digit requirement on the first character is
enforced: if the input has exactly 4 characters and the first is a hex
digit, the result is the prefix from the top two bits of the first
nibble, the decimal digit from its low two bits, and the last three
characters uppercased (whether or not they are hex digits); otherwise
the invalid marker is returned. -/
theorem c1_amended (s : String) : decode_dtc_bytes s = claimC1_amended_decode s := by
  unfold decode_dtc_bytes claimC1_amended_decode
  by_cases hl : s.data.length = 4
  · simp only [hl, if_true, decide_True, Bool.true_and]
    cases hv : hexVal? s.data.headI with
    | none =>
      have hc : isHexChar s.data.headI = false := by
        rw [← hexVal?_isSome_iff, hv]
        rfl
      simp [hc]
    | some v =>
      have hc := isHexChar_headI_of_hexVal?_some hv
      have hlt := hexVal?_lt_16 hv
      simp only [hc, if_true, hv, Option.getD_some]
      interval_cases v <;> rfl
  · have hl2 : ¬ s.length = 4 := hl
    simp [hl, hl2]

theorem isUpperHexChar_toUpper_id {c : Char} (h : isUpperHexChar c = true) :
    c.toUpper = c := by
  unfold isUpperHexChar at h
  simp only [Bool.or_eq_true, Bool.and_eq_true, decide_eq_true_eq] at h
  unfold Char.toUpper
  rw [if_neg]
  omega

theorem isUpperHexChar_ne_space {c : Char} (h : isUpperHexChar c = true) : c ≠ ' ' := by
  unfold isUpperHexChar at h
  simp only [Bool.or_eq_true, Bool.and_eq_true, decide_eq_true_eq] at h
  intro he
  subst he
  simp at h

theorem isUpperHexChar_isHexChar {c : Char} (h : isUpperHexChar c = true) :
    isHexChar c = true := by
  unfold isUpperHexChar at h
  simp only [Bool.or_eq_true, Bool.and_eq_true, decide_eq_true_eq] at h
  unfold isHexChar
  simp only [Bool.or_eq_true, Bool.and_eq_true, decide_eq_true_eq]
  rcases h with h | h
  · exact Or.inl (Or.inl ⟨h.1, h.2⟩)
  · exact Or.inr ⟨h.1, h.2⟩

theorem removeFirstSub_subset {x : Char} :
    ∀ (l pat : List Char), x ∈ removeFirstSub l pat → x ∈ l
  | [], _, h => by simp [removeFirstSub] at h
  | c :: cs, pat, h => by
    unfold removeFirstSub at h
    split at h
    · exact List.drop_subset _ _ h
    · rcases List.mem_cons.mp h with h' | h'
      · exact List.mem_cons.mpr (Or.inl h')
      · exact List.mem_cons.mpr (Or.inr (removeFirstSub_subset cs pat h'))

theorem decode_dtc_bytes_not_invalid {c0 c1 c2 c3 : Char} (h : isHexChar c0 = true) :
    ("INVALID".data).isPrefixOf (decode_dtc_bytes (String.mk [c0, c1, c2, c3])).data
      = false := by
  obtain ⟨v, hv⟩ : ∃ v, hexVal? c0 = some v := by
    rw [← hexVal?_isSome_iff] at h
    exact Option.isSome_iff_exists.mp h
  unfold decode_dtc_bytes
  simp only [List.length_cons, List.length_nil, if_true, List.headI, hv]
  by_cases h0 : (v >>> 2) &&& 3 = 0
  · simp [h0, List.isPrefixOf]
  by_cases h1 : (v >>> 2) &&& 3 = 1
  · simp [h0, h1, List.isPrefixOf]
  by_cases h2 : (v >>> 2) &&& 3 = 2
  · simp [h0, h1, h2, List.isPrefixOf]
  by_cases h3 : (v >>> 2) &&& 3 = 3
  · simp [h0, h1, h2, h3, List.isPrefixOf]
  · simp [h0, h1, h2, h3, List.isPrefixOf]

theorem dtcChunksSrc_eq_claimC2_chunks :
    ∀ (l : List Char), (∀ c ∈ l, isUpperHexChar c = true) →
      dtcChunksSrc l = claimC2_chunks l
  | [], _ => rfl
  | [_], _ => rfl
  | [_, _], _ => rfl
  | [_, _, _], _ => rfl
  | c0 :: c1 :: c2 :: c3 :: rest, h => by
    have ih := dtcChunksSrc_eq_claimC2_chunks rest
      (fun c hc => h c (by simp [hc]))
    have hc0 : isHexChar c0 = true :=
      isUpperHexChar_isHexChar (h c0 (by simp))
    simp only [dtcChunksSrc, claimC2_chunks]
    split
    · exact ih
    · rw [decode_dtc_bytes_not_invalid hc0]
      simp [ih]

/-- Claim C2 counterexample: on the hex payload "01430000" with mode
"03" the echo pair "43" is not at the start, yet parse_dtc_response
removes its first occurrence from the middle of the payload and
returns ["P0100"], while the claimed behaviour (strip only a leading
echo pair) yields ["P0143"]. -/
theorem c2_counterexample :
    parse_dtc_response "01430000" "03" = ["P0100"] ∧
    claimC2_parse "01430000" "03" = ["P0143"] ∧
    parse_dtc_response "01430000" "03" ≠ claimC2_parse "01430000" "03" := by
  refine ⟨by decide, by decide, by decide⟩

/-- Amended claim C2: for every payload of uppercase hex digits and
mode in 03/07/0A, parse_dtc_response removes the mode-specific echo
byte pair at its first occurrence anywhere in the payload (not only at
the start), then consumes the remainder 4 hex characters at a time,
skipping all-zero groups and discarding a trailing short group; in
particular parse_dtc_response ("43" ++ "0133" ++ "0000") "03" =
["P0133"]. -/
theorem c2_amended (response mode : String)
    (hm : mode = "03" ∨ mode = "07" ∨ mode = "0A")
    (hh : ∀ c ∈ response.data, isUpperHexChar c = true) :
    parse_dtc_response response mode = claimC2_amended_parse response mode ∧
    parse_dtc_response "4301330000" "03" = ["P0133"] := by
  refine ⟨?_, by decide⟩
  unfold parse_dtc_response claimC2_amended_parse
  have hfil : response.data.filter (fun c => decide (c ≠ ' ')) = response.data := by
    apply List.filter_eq_self.mpr
    intro c hc
    simpa using isUpperHexChar_ne_space (hh c hc)
  have hmap : response.data.map Char.toUpper = response.data := by
    rw [List.map_congr_left (fun c hc => isUpperHexChar_toUpper_id (hh c hc))]
    exact List.map_id _
  by_cases he : response.data.isEmpty
  · rw [List.isEmpty_iff] at he
    simp [he, removeFirstSub, dtcChunksSrc, claimC2_chunks]
  · have hrm : ∀ pat, ∀ c ∈ removeFirstSub response.data pat, isUpperHexChar c = true :=
      fun pat c hc => hh c (removeFirstSub_subset _ _ hc)
    rcases hm with rfl | rfl | rfl <;>
      simp only [he, if_false, Bool.false_eq_true, reduceIte, hfil, hmap] <;>
      exact dtcChunksSrc_eq_claimC2_chunks _ (hrm _)

/-- Witness for c2_amended at the concrete payload from the spec. -/
theorem c2_amended_witness :
    parse_dtc_response "4301330000" "03" = claimC2_amended_parse "4301330000" "03" ∧
    parse_dtc_response "4301330000" "03" = ["P0133"] :=
  c2_amended "4301330000" "03" (Or.inl rfl) (by decide)

theorem toUpper_eq_ite (c : Char) :
    c.toUpper = if 97 ≤ c.toNat ∧ c.toNat ≤ 122 then Char.ofNat (c.toNat - 32) else c :=
  rfl

theorem isHexChar_toUpper {c : Char} (h : isHexChar c = true) :
    isHexChar c.toUpper = true := by
  unfold isHexChar at h ⊢
  simp only [Bool.or_eq_true, Bool.and_eq_true, decide_eq_true_eq] at h ⊢
  rw [toUpper_eq_ite]
  split
  case isTrue hlow =>
    have hlo : (97 : Nat) ≤ c.toNat := hlow.1
    have hub : c.toNat ≤ 102 := by
      rcases h with (⟨h1, h2⟩ | ⟨h1, h2⟩) | ⟨h1, h2⟩
      · have : c.toNat ≤ 57 := h2
        omega
      · exact h2
      · have : c.toNat ≤ 70 := h2
        omega
    have htn : (Char.ofNat (c.toNat - 32)).toNat = c.toNat - 32 := by
      have hvv : Nat.isValidChar (c.toNat - 32) := Or.inl (by omega)
      rw [Char.ofNat, dif_pos hvv]
      simp [Char.ofNatAux, Char.toNat, UInt32.ofNat', UInt32.ofNatCore, UInt32.toNat]
    refine Or.inr ⟨?_, ?_⟩
    · have : (65 : Nat) ≤ (Char.ofNat (c.toNat - 32)).toNat := by
        rw [htn]; omega
      exact this
    · have : (Char.ofNat (c.toNat - 32)).toNat ≤ 70 := by
        rw [htn]; omega
      exact this
  case isFalse hlow => exact h

theorem splitWSAux_mem :
    ∀ (l cur : List Char), (∀ c ∈ cur, c ≠ ' ') →
      ∀ t ∈ splitWSAux l cur, t ≠ [] ∧ ∀ c ∈ t, (c ∈ l ∨ c ∈ cur) ∧ c ≠ ' '
  | [], cur, hcur, t, ht => by
    unfold splitWSAux at ht
    split at ht
    · simp at ht
    case isFalse hne =>
      rcases List.mem_singleton.mp ht with rfl
      refine ⟨by simpa using (List.isEmpty_iff.not.mp hne), fun c hc => ?_⟩
      have hc' : c ∈ cur := List.mem_reverse.mp hc
      exact ⟨Or.inr hc', hcur c hc'⟩
  | c :: cs, cur, hcur, t, ht => by
    unfold splitWSAux at ht
    split at ht
    case isTrue hsp =>
      subst hsp
      split at ht
      · have := splitWSAux_mem cs [] (by simp) t ht
        exact ⟨this.1, fun x hx =>
          ⟨Or.inl (List.mem_cons.mpr (Or.inr (((this.2 x hx).1).resolve_right (by simp)))),
            (this.2 x hx).2⟩⟩
      case isFalse hne =>
        rcases List.mem_cons.mp ht with rfl | ht'
        · refine ⟨by simpa using (List.isEmpty_iff.not.mp hne), fun x hx => ?_⟩
          have hx' : x ∈ cur := List.mem_reverse.mp hx
          exact ⟨Or.inr hx', hcur x hx'⟩
        · have := splitWSAux_mem cs [] (by simp) t ht'
          exact ⟨this.1, fun x hx =>
            ⟨Or.inl (List.mem_cons.mpr (Or.inr (((this.2 x hx).1).resolve_right (by simp)))),
              (this.2 x hx).2⟩⟩
    case isFalse hsp =>
      have := splitWSAux_mem cs (c :: cur)
        (fun x hx => by
          rcases List.mem_cons.mp hx with rfl | hx'
          · exact hsp
          · exact hcur x hx') t ht
      refine ⟨this.1, fun x hx => ?_⟩
      rcases (this.2 x hx).1 with h' | h'
      · exact ⟨Or.inl (List.mem_cons.mpr (Or.inr h')), (this.2 x hx).2⟩
      · rcases List.mem_cons.mp h' with rfl | h''
        · exact ⟨Or.inl (List.mem_cons.mpr (Or.inl rfl)), (this.2 x hx).2⟩
        · exact ⟨Or.inr h'', (this.2 x hx).2⟩

theorem normalize_tokens_hex (line : String) :
    ∀ t ∈ normalize_tokens line, t.data ≠ [] ∧ ∀ c ∈ t.data, isHexChar c = true := by
  intro t ht
  unfold normalize_tokens at ht
  rcases List.mem_map.mp ht with ⟨raw, hraw, rfl⟩
  have hmem := splitWSAux_mem _ [] (by simp) raw hraw
  constructor
  · simpa using hmem.1
  · intro c hc
    rcases List.mem_map.mp hc with ⟨c', hc', rfl⟩
    have h1 := (hmem.2 c' hc').1.resolve_right (by simp)
    have h2 := (hmem.2 c' hc').2
    have h3 := List.of_mem_filter h1
    have h3' : isHexChar c' = true ∨ c' = ' ' := by simpa using h3
    have h4 : isHexChar c' = true := by
      rcases h3' with h' | h'
      · exact h'
      · exact absurd h' h2
    exact isHexChar_toUpper h4

theorem joinSp_all_hex :
    ∀ (ts : List (List Char)), (∀ t ∈ ts, ∀ c ∈ t, isHexChar c = true) →
      ∀ c ∈ joinSp ts, (isHexChar c || c = ' ') = true
  | [], _, c, hc => by simp [joinSp] at hc
  | [t], h, c, hc => by
    simp only [joinSp] at hc
    simp [h t (by simp) c hc]
  | t :: t2 :: ts, h, c, hc => by
    simp only [joinSp] at hc
    rcases List.mem_append.mp hc with hc' | hc'
    · simp [h t (by simp) c hc']
    · rcases List.mem_cons.mp hc' with rfl | hc''
      · simp
      · exact joinSp_all_hex (t2 :: ts) (fun u hu => h u (List.mem_cons.mpr (Or.inr hu)))
          c hc''

theorem hexishOk_of_normalize {line : String} (h : ¬ (normalize_tokens line).isEmpty = true) :
    hexishOk (normalize_tokens line) = true := by
  unfold hexishOk
  obtain ⟨t0, ts, he⟩ : ∃ t0 ts, normalize_tokens line = t0 :: ts := by
    cases hx : normalize_tokens line with
    | nil => rw [hx] at h; simp at h
    | cons a as => exact ⟨a, as, rfl⟩
  rw [he]
  have hall := normalize_tokens_hex line
  rw [he] at hall
  simp only [Bool.and_eq_true]
  constructor
  · have h0 := (hall t0 (by simp)).1
    cases hts : ts with
    | nil =>
      simp only [List.map_cons, List.map_nil, joinSp]
      simpa using h0
    | cons b bs =>
      simp only [List.map_cons, joinSp]
      rcases List.exists_cons_of_ne_nil h0 with ⟨x, xs, hx⟩
      simp [hx]
  · apply List.all_eq_true.mpr
    intro c hc
    apply joinSp_all_hex ((t0 :: ts).map String.data)
    · intro u hu x hx
      rcases List.mem_map.mp hu with ⟨s, hs, rfl⟩
      exact (hall s hs).2 x hx
    · exact hc

/-- Claim C8 counterexample: the surviving line "7E8 41 Z9" contains
the non-hex non-space character Z, yet group_by_ecu includes it (with
Z deleted by normalize_tokens) instead of rejecting it; the all-hex
recheck runs after the deletion and never fails. -/
theorem c8_counterexample :
    isNoise "7E8 41 Z9" = false ∧
    (∃ c ∈ ("7E8 41 Z9" : String).data, (isHexChar c || c = ' ') = false) ∧
    group_by_ecu ["7E8 41 Z9"] true = [("7E8", [["7E8", "41", "9"]])] := by
  refine ⟨by decide, ⟨'Z', by decide⟩, by decide⟩

/-- Amended claim C8: for every input line that survives the noise
filter, the normalizer deletes the characters that are neither hex
digits nor spaces and tokenizes the remainder; the line contributes an
ECU bucket entry whenever at least one token remains (the subsequent
all-hex recheck never rejects a line), so lines containing non-hex
characters are included with those characters stripped, not excluded. -/
theorem c8_amended (lines : List String) (headers_on : Bool) :
    group_by_ecu lines headers_on = claimC8_group lines headers_on := by
  unfold group_by_ecu claimC8_group
  apply List.foldl_ext
  intro out ln _
  by_cases h1 : ln.data.isEmpty
  · simp [h1]
  by_cases h2 : isNoise ln
  · simp [h1, h2]
  by_cases h3 : (normalize_tokens ln).isEmpty
  · simp [h1, h2, h3]
  · simp [h1, h2, h3, hexishOk_of_normalize h3]

theorem findFromIdx_eq :
    ∀ (payload pat : List String),
      findFromIdx payload pat
        = (claimC7_firstMatchIdx payload pat).map (fun i => payload.drop i)
  | [], pat => by
    unfold findFromIdx claimC7_firstMatchIdx
    cases pat with
    | nil => decide
    | cons a as => simp [List.isPrefixOf, List.find?, List.range_succ]
  | x :: xs, pat => by
    have ih := findFromIdx_eq xs pat
    unfold findFromIdx claimC7_firstMatchIdx
    have hr : List.range (xs.length + 1 + 1)
        = 0 :: (List.range (xs.length + 1)).map Nat.succ := List.range_succ_eq_map _
    simp only [List.length_cons, hr]
    by_cases hp : pat.isPrefixOf (x :: xs)
    · simp [List.find?_cons_of_pos, hp]
    · rw [if_neg hp, List.find?_cons_of_neg _ (by simpa using hp), List.find?_map]
      rw [Option.map_map]
      simp only [Function.comp_def, List.drop_succ_cons]
      exact ih

theorem searchEcusSrc_eq :
    ∀ (order : List String) (merged : List (String × List String)) (pat : List String),
      searchEcusSrc order merged pat
        = order.findSome? (fun e =>
            (claimC7_firstMatchIdx (lookupPayload merged e) pat).map
              (fun i => (e, (lookupPayload merged e).drop i)))
  | [], _, _ => rfl
  | e :: es, merged, pat => by
    have ih := searchEcusSrc_eq es merged pat
    unfold searchEcusSrc
    rw [List.findSome?_cons, findFromIdx_eq]
    cases claimC7_firstMatchIdx (lookupPayload merged e) pat with
    | none => simpa using ih
    | some i => simp

/-- Claim C7: find_obd_response_payload equals the reference search
written from the claim wording — preferred ECUs first in the given
order, then the remaining ECUs in original map order; the first ECU
containing the expected prefix wins, and its payload is returned
contiguously from the first occurrence of the prefix to the end;
nothing is returned when no ECU matches.  The concrete conjunct shows
prefer_ecus = ["7E8"] overriding an earlier matching 7E0 entry. -/
theorem c7_find_matches_spec (merged : List (String × List String))
    (expectedPfx preferEcus : List String) :
    find_obd_response_payload merged expectedPfx preferEcus
      = claimC7_find merged expectedPfx preferEcus ∧
    find_obd_response_payload
        [("7E0", ["41", "0C", "00", "00"]), ("7E8", ["41", "0C", "1A", "F8"])]
        ["41", "0C"] ["7E8"]
      = some ("7E8", ["41", "0C", "1A", "F8"]) := by
  refine ⟨?_, by decide⟩
  unfold find_obd_response_payload claimC7_find
  by_cases hp : preferEcus.isEmpty <;> simp [hp, searchEcusSrc_eq]

theorem contEntry_unavail {B C : Nat} {name : String} {bit : Nat}
    (h : (contEntry B C name bit).2.available = false) :
    (contEntry B C name bit).2.complete = false := by
  unfold contEntry at h ⊢
  simp only at h ⊢
  simp [h]

theorem mxEntryNoncont_unavail {S D : Nat} {name : String} {bit dbit : Nat}
    (h : (mxEntryNoncont S D name bit dbit).2.available = false) :
    (mxEntryNoncont S D name bit dbit).2.complete = false := by
  unfold mxEntryNoncont at h ⊢
  simp only at h ⊢
  simp [h]

/-- Claim C6: in both readiness decoders, every monitor entry with
available = false has complete = false, for all four status bytes —
unsupported monitors are never reported complete. -/
theorem c6_unavailable_never_complete (A B C D : Nat) :
    (∀ p ∈ scanner_readiness_monitors A B C D,
        p.2.available = false → p.2.complete = false) ∧
    (∀ p ∈ mixin_readiness_monitors A B C D,
        p.2.available = false → p.2.complete = false) := by
  constructor
  · intro p hp
    unfold scanner_readiness_monitors at hp
    by_cases hs : bitSet B 3 <;> simp only [hs, Bool.not_true, Bool.not_false,
      Bool.false_eq_true, reduceIte, List.mem_cons, List.not_mem_nil, or_false] at hp
    · rcases hp with rfl | rfl | rfl | rfl | rfl | rfl | rfl <;>
        first
          | exact contEntry_unavail
          | (intro h; exact absurd h (by simp [milEntry, scEntryNoncont]))
    · rcases hp with rfl | rfl | rfl | rfl | rfl | rfl | rfl | rfl | rfl | rfl | rfl | rfl <;>
        first
          | exact contEntry_unavail
          | (intro h; exact absurd h (by simp [milEntry, scEntryNoncont]))
  · intro p hp
    unfold mixin_readiness_monitors at hp
    by_cases hs : bitSet B 3 <;> simp only [hs, Bool.not_true, Bool.not_false,
      Bool.false_eq_true, reduceIte, List.mem_cons, List.not_mem_nil, or_false] at hp
    · rcases hp with rfl | rfl | rfl | rfl | rfl | rfl | rfl <;>
        first
          | exact contEntry_unavail
          | exact mxEntryNoncont_unavail
          | (intro h; exact absurd h (by simp [milEntry]))
    · rcases hp with rfl | rfl | rfl | rfl | rfl | rfl | rfl | rfl | rfl | rfl | rfl | rfl <;>
        first
          | exact contEntry_unavail
          | exact mxEntryNoncont_unavail
          | (intro h; exact absurd h (by simp [milEntry]))

/-- Witness for c6_unavailable_never_complete: with all bytes zero the
mixin reports Misfire as unavailable, and the theorem yields
complete = false for it. -/
theorem c6_witness :
    ∀ p ∈ mixin_readiness_monitors 0 0 0 0,
      p.2.available = false → p.2.complete = false :=
  (c6_unavailable_never_complete 0 0 0 0).2

/-- Claim C10 counterexample: on the payload 41 01 00 00 00 00 (all
status bytes zero, spark branch) the two decoders disagree: the
Catalyst monitor is available-and-complete in OBDScanner.read_readiness
but unavailable-and-incomplete in ReadinessMixin.read_readiness. -/
theorem c10_counterexample :
    scanner_readiness_payload ["41", "01", "00", "00", "00", "00"]
      ≠ mixin_readiness_payload ["41", "01", "00", "00", "00", "00"] ∧
    (scanner_readiness_payload ["41", "01", "00", "00", "00", "00"]).lookup "Catalyst"
      = some (ReadinessStatus.mk "Catalyst" true true) ∧
    (mixin_readiness_payload ["41", "01", "00", "00", "00", "00"]).lookup "Catalyst"
      = some (ReadinessStatus.mk "Catalyst" false false) := by
  refine ⟨by decide, by decide, by decide⟩

/-- Amended claim C10: for every 4-byte input the two decoders produce
the same monitor names in the same order, and agree on every entry the
mixin reports available (in particular on the MIL entry and the three
continuous monitors, whose formulas coincide); they can differ only on
non-continuous and diesel monitors whose support bit is clear, where
scanner.py still reports available = true while readiness.py reports
the monitor unavailable. -/
theorem c10_amended (A B C D : Nat) :
    ((scanner_readiness_monitors A B C D).map Prod.fst
      = (mixin_readiness_monitors A B C D).map Prod.fst)
  ∧ (∀ q ∈ List.zip (scanner_readiness_monitors A B C D)
        (mixin_readiness_monitors A B C D),
        q.1.1 = q.2.1 ∧ (q.2.2.available = true → q.1.2 = q.2.2))
  ∧ (∀ p ∈ scanner_readiness_monitors A B C D,
        p.1 = "Misfire" ∨ p.1 = "Fuel System" ∨ p.1 = "Components"
          ∨ p.2.available = true) := by
  refine ⟨?_, ?_, ?_⟩
  · unfold scanner_readiness_monitors mixin_readiness_monitors
    by_cases hs : bitSet B 3 <;>
      simp [hs, milEntry, contEntry, scEntryNoncont, mxEntryNoncont]
  · intro q hq
    unfold scanner_readiness_monitors mixin_readiness_monitors at hq
    by_cases hs : bitSet B 3 <;> simp only [hs, Bool.not_true, Bool.not_false,
      Bool.false_eq_true, reduceIte, List.zip_cons_cons, List.zip_nil_right,
      List.mem_cons, List.not_mem_nil, or_false] at hq
    · rcases hq with rfl | rfl | rfl | rfl | rfl | rfl | rfl <;>
        (refine ⟨rfl, fun h => ?_⟩; simp_all [mxEntryNoncont, scEntryNoncont, milEntry, contEntry])
    · rcases hq with rfl | rfl | rfl | rfl | rfl | rfl | rfl | rfl | rfl | rfl | rfl | rfl <;>
        (refine ⟨rfl, fun h => ?_⟩; simp_all [mxEntryNoncont, scEntryNoncont, milEntry, contEntry])
  · intro p hp
    unfold scanner_readiness_monitors at hp
    by_cases hs : bitSet B 3 <;> simp only [hs, Bool.not_true, Bool.not_false,
      Bool.false_eq_true, reduceIte, List.mem_cons, List.not_mem_nil, or_false] at hp
    · rcases hp with rfl | rfl | rfl | rfl | rfl | rfl | rfl <;>
        simp [milEntry, scEntryNoncont]
    · rcases hp with rfl | rfl | rfl | rfl | rfl | rfl | rfl | rfl | rfl | rfl | rfl | rfl <;>
        simp [milEntry, contEntry, scEntryNoncont]

/-- Witness for c10_amended at all-zero bytes: the name sequences of
the two decoders coincide. -/
theorem c10_amended_witness :
    (scanner_readiness_monitors 0 0 0 0).map Prod.fst
      = (mixin_readiness_monitors 0 0 0 0).map Prod.fst :=
  (c10_amended 0 0 0 0).1

/-- Claim C3 counterexample: in the spec scenario (channel answering
010C with 7E8 06 41 0C 1A F8 00 00 and the prompt), read_pid "0C"
returns a reading whose raw_hex is the full data field "1AF80000"
including the padding bytes, not "1AF8". -/
theorem c3_counterexample :
    ((read_pid true true c3Fetch true "0C").2.map
        (Option.map (fun r => (r.pid, r.raw_hex))))
      = .ok (some ("0C", "1AF80000")) ∧
    ("1AF80000" : String) ≠ "1AF8" := by
  refine ⟨by decide, by decide⟩

/-- Amended claim C3: in the spec scenario read_pid "0C" yields a
SensorReading with pid "0C", raw_hex "1AF80000" (all payload bytes
after the 41 0C echo, padding included), and value the RPM formula
applied to bytes 0x1A and 0xF8, rounded to 2 decimal places (which is
1726). -/
theorem c3_amended :
    ((read_pid true true c3Fetch true "0C").2.map
        (Option.map (fun r => (r.name, r.unit, r.pid, r.raw_hex))))
      = .ok (some ("Engine RPM", "rpm", "0C", "1AF80000")) ∧
    ((read_pid true true c3Fetch true "0C").2.map
        (Option.map SensorReadingE.value))
      = .ok (some (round2 ((256 * ((0x1A : Nat) : ℚ) + ((0xF8 : Nat) : ℚ)) / 4))) ∧
    round2 ((256 * ((0x1A : Nat) : ℚ) + ((0xF8 : Nat) : ℚ)) / 4) = 1726 := by
  refine ⟨by decide, by rfl, ?_⟩
  unfold round2
  have harg : ((256 * ((0x1A : Nat) : ℚ) + ((0xF8 : Nat) : ℚ)) / 4 * 100 + 1 / 2)
      = 345201 / 2 := by
    norm_num
  rw [harg]
  have hfl : Rat.floor (345201 / 2 : ℚ) = 172600 := by
    rw [Rat.floor_def', ← Rat.floor_def, Int.floor_eq_iff]
    constructor <;> norm_num
  rw [hfl]
  norm_num

/-- Claim C4: whenever the transport returns a non-empty response
whose first byte is 0x7F, the send-and-expect path fails with
UdsNegativeResponse carrying the response's second byte as the
original service id and its third byte as the NRC — never a truncated
positive response. -/
theorem c4_negative_response (configured auto_configure : Bool)
    (send : List Nat → List Nat) (service_id : Nat) (data : List Nat)
    (h1 : send (udsBuildRequest service_id data) ≠ [])
    (h2 : (send (udsBuildRequest service_id data)).head? = some 0x7F) :
    (uds_send_and_expect configured auto_configure send service_id data).2
      = .error (.negativeResponse
          ((send (udsBuildRequest service_id data)).getD 1 0)
          ((send (udsBuildRequest service_id data)).getD 2 0)) := by
  unfold uds_send_and_expect
  have hne : (send (udsBuildRequest service_id data)).isEmpty = false := by
    cases hsend : send (udsBuildRequest service_id data) with
    | nil => exact absurd hsend h1
    | cons a as => rfl
  have hneg : udsIsNegativeResponse (send (udsBuildRequest service_id data)) = true := by
    unfold udsIsNegativeResponse
    rw [h2]
    rfl
  simp [hne, hneg, udsParseNegative]

/-- Witness for c4_negative_response: the 0x7F 0x22 0x31 response
raises the negative-response condition with service 0x22 and NRC
0x31. -/
theorem c4_witness :
    (uds_send_and_expect false true (fun _ => [0x7F, 0x22, 0x31]) 0x22 [0xF1, 0x90]).2
      = .error (.negativeResponse 0x22 0x31) := by
  have h := c4_negative_response false true (fun _ => [0x7F, 0x22, 0x31]) 0x22
    [0xF1, 0x90] (by decide) (by decide)
  simpa using h

theorem except_map_error_eq {e a b : Type} (f : a → b) (x : Except e a) (err : e) :
    x.map f = .error err ↔ x = .error err := by
  cases x <;> simp [Except.map]

theorem obd_query_payload_lost {connected elmUp : Bool} {fetch : Fetch}
    {cmd : String} {pfx : List String} {h_on : Bool}
    (h : (obd_query_payload connected elmUp fetch cmd pfx h_on).2
      = .error .connectionLost) :
    (obd_query_payload connected elmUp fetch cmd pfx h_on).1 = false := by
  unfold obd_query_payload at h ⊢
  by_cases hc : (connected && elmUp) = true
  · simp only [hc, Bool.not_true, Bool.false_eq_true, reduceIte] at h ⊢
    cases hf : fetch cmd with
    | error e =>
      cases e with
      | disconnected => simp [hf]
      | comm => rw [hf] at h; simp at h
    | ok lines => rw [hf] at h; simp at h
  · simp only [Bool.not_eq_true] at hc
    simp only [hc, Bool.not_false, reduceIte] at h
    simp at h

theorem read_pid_lost {connected elmUp : Bool} {fetch : Fetch} {headers_on : Bool}
    {pid : String}
    (h : (read_pid connected elmUp fetch headers_on pid).2 = .error .connectionLost) :
    (read_pid connected elmUp fetch headers_on pid).1 = false := by
  unfold read_pid at h ⊢
  by_cases hc : (connected && elmUp) = true
  · rw [hc] at h ⊢
    simp only [Bool.not_true, Bool.false_eq_true, reduceIte] at h ⊢
    cases hl : PIDS.find? (fun p => p.1 == pyUpper pid) with
    | none => rw [hl] at h; simp at h
    | some pinfo =>
      rw [hl] at h
      rcases hq : obd_query_payload true elmUp fetch
          ("01" ++ pyUpper pid) ["41", pyUpper pid] headers_on with ⟨s, r⟩
      rw [hq] at h
      cases r with
      | error e =>
        simp at h
        subst h
        have hl2 := @obd_query_payload_lost true elmUp fetch
          ("01" ++ pyUpper pid) ["41", pyUpper pid] headers_on (by rw [hq])
        rw [hq] at hl2
        simpa using hl2
      | ok ropt =>
        cases ropt with
        | none => simp at h
        | some pr =>
          obtain ⟨ecu, payload⟩ := pr
          by_cases hlen : payload.length < 2
          · simp [hlen] at h
          · cases hd : decode_pid_response (pyUpper pid)
                (String.join (payload.drop 2)) with
            | none => simp [hlen, hd] at h
            | some v => simp [hlen, hd] at h
  · simp only [Bool.not_eq_true] at hc
    simp only [hc, Bool.not_false, reduceIte] at h
    simp at h

theorem scanner_read_dtcs_lost {desc : String → String} {connected elmUp : Bool}
    {fetch : Fetch}
    (h : (scanner_read_dtcs desc connected elmUp fetch).2.2
      = .error .connectionLost) :
    (scanner_read_dtcs desc connected elmUp fetch).1 = false := by
  unfold scanner_read_dtcs at h ⊢
  by_cases hc : (connected && elmUp) = true
  · simp only [hc, Bool.not_true, Bool.false_eq_true, reduceIte] at h ⊢
    cases h3 : fetch "03" with
    | error e =>
      cases e with
      | disconnected => simp [h3]
      | comm => rw [h3] at h; simp at h
    | ok lines3 =>
      simp only [h3] at h ⊢
      by_cases hd3 : containsSubstr (pyJoinUpper lines3) ("DISCONNECTED".data) = true
      · simp [hd3]
      · simp only [Bool.not_eq_true] at hd3
        simp only [hd3, Bool.false_eq_true, reduceIte] at h ⊢
        cases h7 : fetch "07" with
        | error e =>
          cases e with
          | disconnected => simp [h7]
          | comm => rw [h7] at h; simp at h
        | ok lines7 =>
          simp only [h7] at h ⊢
          by_cases hd7 : containsSubstr (pyJoinUpper lines7) ("DISCONNECTED".data) = true
          · simp [hd7]
          · simp only [Bool.not_eq_true] at hd7
            simp only [hd7, Bool.false_eq_true, reduceIte] at h ⊢
            cases hA : fetch "0A" with
            | error e =>
              cases e with
              | disconnected => simp [hA]
              | comm => rw [hA] at h; simp at h
            | ok linesA =>
              simp only [hA] at h ⊢
              by_cases hdA : containsSubstr (pyJoinUpper linesA) ("DISCONNECTED".data) = true
              · simp [hdA]
              · simp only [Bool.not_eq_true] at hdA
                simp only [hdA, Bool.false_eq_true, reduceIte] at h
                simp at h
  · simp only [Bool.not_eq_true] at hc
    simp only [hc, Bool.not_false, reduceIte] at h
    simp at h

theorem clear_dtcs_lost {connected elmUp : Bool} {fetch : Fetch}
    (h : (clear_dtcs connected elmUp fetch).2 = .error .connectionLost) :
    (clear_dtcs connected elmUp fetch).1 = false := by
  unfold clear_dtcs at h ⊢
  by_cases hc : (connected && elmUp) = true
  · simp only [hc, Bool.not_true, Bool.false_eq_true, reduceIte] at h ⊢
    by_cases hd : (send_obd fetch "04" == "DISCONNECTED") = true
    · simp [hd]
    · simp only [Bool.not_eq_true] at hd
      simp [hd] at h
  · simp only [Bool.not_eq_true] at hc
    simp only [hc, Bool.not_false, reduceIte] at h
    simp at h

theorem scanner_read_readiness_lost {connected elmUp : Bool} {fetch : Fetch}
    {headers_on : Bool}
    (h : (scanner_read_readiness connected elmUp fetch headers_on).2
      = .error .connectionLost) :
    (scanner_read_readiness connected elmUp fetch headers_on).1 = false := by
  unfold scanner_read_readiness at h ⊢
  by_cases hc : (connected && elmUp) = true
  · rw [hc] at h ⊢
    simp only [Bool.not_true, Bool.false_eq_true, reduceIte] at h ⊢
    rcases hq : obd_query_payload true elmUp fetch "0101"
        ["41", "01"] headers_on with ⟨s, r⟩
    rw [hq] at h
    cases r with
    | error e =>
      simp at h
      subst h
      have hl2 := @obd_query_payload_lost true elmUp fetch
        "0101" ["41", "01"] headers_on (by rw [hq])
      rw [hq] at hl2
      simpa using hl2
    | ok ropt =>
      cases ropt with
      | none => simp at h
      | some pr =>
        obtain ⟨ecu, payload⟩ := pr
        simp at h
  · simp only [Bool.not_eq_true] at hc
    simp only [hc, Bool.not_false, reduceIte] at h
    simp at h

theorem get_mil_status_lost {connected elmUp : Bool} {fetch : Fetch}
    {headers_on : Bool}
    (h : (get_mil_status connected elmUp fetch headers_on).2
      = .error .connectionLost) :
    (get_mil_status connected elmUp fetch headers_on).1 = false := by
  unfold get_mil_status at h ⊢
  by_cases hc : (connected && elmUp) = true
  · rw [hc] at h ⊢
    simp only [Bool.not_true, Bool.false_eq_true, reduceIte] at h ⊢
    rcases hq : obd_query_payload true elmUp fetch "0101"
        ["41", "01"] headers_on with ⟨s, r⟩
    rw [hq] at h
    cases r with
    | error e =>
      simp at h
      subst h
      have hl2 := @obd_query_payload_lost true elmUp fetch
        "0101" ["41", "01"] headers_on (by rw [hq])
      rw [hq] at hl2
      simpa using hl2
    | ok ropt =>
      cases ropt with
      | none => simp at h
      | some pr =>
        obtain ⟨ecu, payload⟩ := pr
        by_cases hlen : payload.length < 3
        · simp [hlen] at h
        · cases hv : hexStrVal? (payload[2]?.getD "").data with
          | none => simp [hlen, hv] at h
          | some a => simp [hlen, hv] at h
  · simp only [Bool.not_eq_true] at hc
    simp only [hc, Bool.not_false, reduceIte] at h
    simp at h

/-- Claim C9: for every modelled scanner operation and every adapter
behaviour, whenever the operation propagates ConnectionLost the
returned scanner state is already Disconnected. -/
theorem c9_connection_lost_sets_disconnected (op : ScannerOp)
    (desc : String → String) (connected elmUp headers_on : Bool) (fetch : Fetch)
    (h : (runOp op desc connected elmUp headers_on fetch).2
      = .error .connectionLost) :
    (runOp op desc connected elmUp headers_on fetch).1 = false := by
  cases op with
  | queryPayload cmd pfx =>
    simp only [runOp] at h ⊢
    exact obd_query_payload_lost ((except_map_error_eq _ _ _).mp h)
  | readPid pid =>
    simp only [runOp] at h ⊢
    exact read_pid_lost ((except_map_error_eq _ _ _).mp h)
  | readDtcs =>
    simp only [runOp] at h ⊢
    exact scanner_read_dtcs_lost ((except_map_error_eq _ _ _).mp h)
  | clearDtcs =>
    simp only [runOp] at h ⊢
    exact clear_dtcs_lost ((except_map_error_eq _ _ _).mp h)
  | readReadiness =>
    simp only [runOp] at h ⊢
    exact scanner_read_readiness_lost ((except_map_error_eq _ _ _).mp h)
  | getMilStatus =>
    simp only [runOp] at h ⊢
    exact get_mil_status_lost ((except_map_error_eq _ _ _).mp h)

/-- Witness for c9_connection_lost_sets_disconnected: clear_dtcs
against an adapter that reports a disconnection. -/
theorem c9_witness :
    (runOp .clearDtcs (fun _ => "") true true true
      (fun _ => .error .disconnected)).1 = false :=
  c9_connection_lost_sets_disconnected .clearDtcs (fun _ => "") true true true
    (fun _ => .error .disconnected) (by decide)

theorem addIfNew_sub {desc : String → String} {st : String} :
    ∀ (cs : List String) (acc : List DtcCode), ∀ e ∈ acc, e ∈ addIfNew desc st acc cs
  | [], _, _, he => he
  | c :: cs, acc, e, he => by
    unfold addIfNew
    split
    · exact addIfNew_sub cs acc e he
    · exact addIfNew_sub cs (acc ++ [DtcCode.mk c (desc c) st]) e
        (List.mem_append.mpr (Or.inl he))

theorem addIfNew_code_mem {desc : String → String} {st : String} :
    ∀ (cs : List String) (acc : List DtcCode) (c : String), c ∈ cs →
      ∃ a ∈ addIfNew desc st acc cs, a.code = c
  | [], _, _, hc => by simp at hc
  | c' :: cs, acc, c, hc => by
    unfold addIfNew
    rcases List.mem_cons.mp hc with rfl | hc'
    · split
      case isTrue hg =>
        rcases List.any_eq_true.mp hg with ⟨a, ha, hac⟩
        exact ⟨a, addIfNew_sub cs acc a ha, by simpa using hac⟩
      case isFalse hg =>
        refine ⟨DtcCode.mk c (desc c) st, ?_, rfl⟩
        exact addIfNew_sub cs _ _ (List.mem_append.mpr (Or.inr (by simp)))
    · split
      · exact addIfNew_code_mem cs acc c hc'
      · exact addIfNew_code_mem cs _ c hc'

theorem addIfNew_mem {desc : String → String} {st : String} :
    ∀ (cs : List String) (acc : List DtcCode), ∀ e ∈ addIfNew desc st acc cs,
      e ∈ acc ∨ (e.status = st ∧ e.code ∈ cs ∧ ∀ a ∈ acc, a.code ≠ e.code)
  | [], _, _, he => Or.inl he
  | c :: cs, acc, e, he => by
    unfold addIfNew at he
    split at he
    case isTrue hg =>
      rcases addIfNew_mem cs acc e he with h | ⟨h1, h2, h3⟩
      · exact Or.inl h
      · exact Or.inr ⟨h1, List.mem_cons.mpr (Or.inr h2), h3⟩
    case isFalse hg =>
      have hnone : ∀ a ∈ acc, a.code ≠ c := by
        intro a ha
        have := List.any_eq_false.mp (Bool.not_eq_true _ |>.mp hg) a ha
        simpa using this
      rcases addIfNew_mem cs (acc ++ [DtcCode.mk c (desc c) st]) e he with h | ⟨h1, h2, h3⟩
      · rcases List.mem_append.mp h with h' | h'
        · exact Or.inl h'
        · rcases List.mem_singleton.mp h' with rfl
          exact Or.inr ⟨rfl, by simp, hnone⟩
      · refine Or.inr ⟨h1, List.mem_cons.mpr (Or.inr h2), fun a ha => ?_⟩
        exact h3 a (List.mem_append.mpr (Or.inl ha))

/-- The duplicate-code relation of the amended claim C5: two entries
may share a code only when both came from the mode 03 loop. -/
def dupOnlyStored (a b : DtcCode) : Prop :=
  a.code = b.code → a.status = "stored" ∧ b.status = "stored"

theorem addIfNew_pairwise {desc : String → String} {st : String} :
    ∀ (cs : List String) (acc : List DtcCode),
      List.Pairwise dupOnlyStored acc → List.Pairwise dupOnlyStored (addIfNew desc st acc cs)
  | [], _, hp => hp
  | c :: cs, acc, hp => by
    unfold addIfNew
    split
    case isTrue hg => exact addIfNew_pairwise cs acc hp
    case isFalse hg =>
      refine addIfNew_pairwise cs _ (List.pairwise_append.mpr ⟨hp, by simp, ?_⟩)
      intro a ha b hb
      rcases List.mem_singleton.mp hb with rfl
      intro hcode
      have := List.any_eq_false.mp (Bool.not_eq_true _ |>.mp hg) a ha
      simp at this
      exact absurd hcode this

theorem dtcEntries_mem {desc : String → String} {st : String} {codes : List String}
    {e : DtcCode} (he : e ∈ dtcEntriesFromCodes desc st codes) :
    e.status = st ∧ e.code ∈ codes := by
  rcases List.mem_map.mp he with ⟨c, hc, rfl⟩
  exact ⟨rfl, hc⟩

theorem dtcEntries_code_mem {desc : String → String} {st : String} {codes : List String}
    {c : String} (hc : c ∈ codes) :
    ∃ a ∈ dtcEntriesFromCodes desc st codes, a.code = c :=
  ⟨DtcCode.mk c (desc c) st, List.mem_map.mpr ⟨c, hc, rfl⟩, rfl⟩

theorem dtcEntries_pairwise {desc : String → String} {codes : List String} :
    List.Pairwise dupOnlyStored (dtcEntriesFromCodes desc "stored" codes) := by
  induction codes with
  | nil => simp [dtcEntriesFromCodes]
  | cons c cs ih =>
    simp only [dtcEntriesFromCodes, List.map_cons] at ih ⊢
    refine List.Pairwise.cons ?_ ih
    intro b hb
    unfold dupOnlyStored
    intro _
    rcases List.mem_map.mp hb with ⟨x, _, rfl⟩
    constructor <;> simp

theorem scanner_read_dtcs_sent_ok (desc : String → String) (connected elmUp : Bool)
    (fetch : Fetch) :
    ((scanner_read_dtcs desc connected elmUp fetch).2.1).isPrefixOf
        ["03", "07", "0A"] = true
    ∧ ∀ l, (scanner_read_dtcs desc connected elmUp fetch).2.2 = .ok l →
        (scanner_read_dtcs desc connected elmUp fetch).2.1 = ["03", "07", "0A"]
        ∧ l = addIfNew desc "permanent"
              (addIfNew desc "pending"
                (dtcEntriesFromCodes desc "stored" (mode_codes fetch "03"))
                (mode_codes fetch "07"))
              (mode_codes fetch "0A") := by
  unfold scanner_read_dtcs
  by_cases hc : (connected && elmUp) = true
  · simp only [hc, Bool.not_true, Bool.false_eq_true, reduceIte]
    cases h3 : fetch "03" with
    | error e =>
      cases e <;>
        exact ⟨(by decide : (["03"] : List String).isPrefixOf ["03", "07", "0A"] = true),
          fun l hl => by simp at hl⟩
    | ok lines3 =>
      by_cases hd3 : containsSubstr (pyJoinUpper lines3) ("DISCONNECTED".data) = true
      · simp only [hd3, reduceIte]
        exact ⟨(by decide : (["03"] : List String).isPrefixOf ["03", "07", "0A"] = true),
          fun l hl => by simp at hl⟩
      · simp only [Bool.not_eq_true] at hd3
        simp only [hd3, Bool.false_eq_true, reduceIte]
        cases h7 : fetch "07" with
        | error e =>
          cases e <;>
            exact ⟨(by decide :
                (["03", "07"] : List String).isPrefixOf ["03", "07", "0A"] = true),
              fun l hl => by simp at hl⟩
        | ok lines7 =>
          by_cases hd7 : containsSubstr (pyJoinUpper lines7) ("DISCONNECTED".data) = true
          · simp only [hd7, reduceIte]
            exact ⟨(by decide :
                (["03", "07"] : List String).isPrefixOf ["03", "07", "0A"] = true),
              fun l hl => by simp at hl⟩
          · simp only [Bool.not_eq_true] at hd7
            simp only [hd7, Bool.false_eq_true, reduceIte]
            cases hA : fetch "0A" with
            | error e =>
              cases e <;>
                exact ⟨(by decide :
                    (["03", "07", "0A"] : List String).isPrefixOf ["03", "07", "0A"] = true),
                  fun l hl => by simp at hl⟩
            | ok linesA =>
              by_cases hdA : containsSubstr (pyJoinUpper linesA) ("DISCONNECTED".data) = true
              · simp only [hdA, reduceIte]
                exact ⟨(by decide :
                    (["03", "07", "0A"] : List String).isPrefixOf ["03", "07", "0A"] = true),
                  fun l hl => by simp at hl⟩
              · simp only [Bool.not_eq_true] at hdA
                simp only [hdA, Bool.false_eq_true, reduceIte]
                refine ⟨(by decide :
                    (["03", "07", "0A"] : List String).isPrefixOf ["03", "07", "0A"] = true),
                  fun l hl => ⟨by trivial, ?_⟩⟩
                simp only [Except.ok.injEq] at hl
                subst hl
                by_cases he3 : errTokenPresent (pyJoinUpper lines3) = true <;>
                  by_cases he7 : errTokenPresent (pyJoinUpper lines7) = true <;>
                  by_cases heA : errTokenPresent (pyJoinUpper linesA) = true <;>
                  simp [mode_codes, h3, h7, hA, hd3, hd7, hdA, he3, he7, heA,
                    addIfNew, dtcEntriesFromCodes]
  · simp only [Bool.not_eq_true] at hc
    simp only [hc, Bool.not_false, reduceIte]
    exact ⟨(by decide : ([] : List String).isPrefixOf ["03", "07", "0A"] = true),
      fun l hl => by simp at hl⟩

/-- Claim C5 counterexample: with the mode 03 response repeating the
code 0133 (and modes 07 and 0A reporting NO DATA), read_dtcs returns
the code P0133 twice — the mode 03 loop has no intra-mode
deduplication — contradicting "at most one DiagnosticCode per code
value across the whole read". -/
theorem c5_counterexample :
    scanner_read_dtcs (fun _ => "") true true c5Fetch
      = (true, ["03", "07", "0A"],
          .ok [DtcCode.mk "P0133" "" "stored", DtcCode.mk "P0133" "" "stored"]) ∧
    ¬ List.Pairwise (fun a b => a.code ≠ b.code)
        [DtcCode.mk "P0133" "" "stored", DtcCode.mk "P0133" "" "stored"] := by
  refine ⟨by decide, by decide⟩

/-- Amended claim C5: read_dtcs sends modes 03, 07 and 0A in exactly
that order (a prefix of it when an error aborts the read, all three on
success).  Mode 03 codes are all appended with status stored,
including duplicates; a mode 07 or 0A code is appended (status pending
or permanent) only when no entry with that code exists yet.
Consequently two distinct entries can share a code only when both are
stored, and each entry's status is that of the first mode (03 before
07 before 0A) whose parsed codes contain its code. -/
theorem c5_amended (desc : String → String) (connected elmUp : Bool) (fetch : Fetch) :
    ((scanner_read_dtcs desc connected elmUp fetch).2.1).isPrefixOf
        ["03", "07", "0A"] = true
  ∧ ∀ l, (scanner_read_dtcs desc connected elmUp fetch).2.2 = .ok l →
      (scanner_read_dtcs desc connected elmUp fetch).2.1 = ["03", "07", "0A"]
      ∧ l = addIfNew desc "permanent"
            (addIfNew desc "pending"
              (dtcEntriesFromCodes desc "stored" (mode_codes fetch "03"))
              (mode_codes fetch "07"))
            (mode_codes fetch "0A")
      ∧ List.Pairwise dupOnlyStored l
      ∧ ∀ e ∈ l,
          (e.status = "stored" → e.code ∈ mode_codes fetch "03")
          ∧ (e.status = "pending" → e.code ∈ mode_codes fetch "07"
              ∧ e.code ∉ mode_codes fetch "03")
          ∧ (e.status = "permanent" → e.code ∈ mode_codes fetch "0A"
              ∧ e.code ∉ mode_codes fetch "03" ∧ e.code ∉ mode_codes fetch "07") := by
  obtain ⟨hpre, hok⟩ := scanner_read_dtcs_sent_ok desc connected elmUp fetch
  refine ⟨hpre, fun l hl => ?_⟩
  obtain ⟨hsent, heq⟩ := hok l hl
  subst heq
  refine ⟨hsent, rfl, ?_, ?_⟩
  · exact addIfNew_pairwise _ _ (addIfNew_pairwise _ _ dtcEntries_pairwise)
  · intro e he
    rcases addIfNew_mem _ _ e he with h2 | ⟨hstA, hcsA, hnotA⟩
    · rcases addIfNew_mem _ _ e h2 with h1 | ⟨hst7, hcs7, hnot7⟩
      · obtain ⟨hst, hcode⟩ := dtcEntries_mem h1
        refine ⟨fun _ => hcode, fun hp => ?_, fun hp => ?_⟩
        · rw [hst] at hp
          exact absurd hp (by decide)
        · rw [hst] at hp
          exact absurd hp (by decide)
      · refine ⟨fun hs => ?_, fun _ => ⟨hcs7, fun hin => ?_⟩, fun hp => ?_⟩
        · rw [hst7] at hs
          exact absurd hs (by decide)
        · obtain ⟨a, ha, hac⟩ := @dtcEntries_code_mem desc "stored"
            (mode_codes fetch "03") e.code hin
          exact hnot7 a ha hac
        · rw [hst7] at hp
          exact absurd hp (by decide)
    · refine ⟨fun hs => ?_, fun hp => ?_, fun _ => ⟨hcsA, ?_, ?_⟩⟩
      · rw [hstA] at hs
        exact absurd hs (by decide)
      · rw [hstA] at hp
        exact absurd hp (by decide)
      · intro hin
        obtain ⟨a, ha, hac⟩ := @dtcEntries_code_mem desc "stored"
          (mode_codes fetch "03") e.code hin
        exact hnotA a (addIfNew_sub _ _ a ha) hac
      · intro hin
        obtain ⟨a, ha, hac⟩ := @addIfNew_code_mem desc "pending"
          (mode_codes fetch "07")
          (dtcEntriesFromCodes desc "stored" (mode_codes fetch "03")) e.code hin
        exact hnotA a ha hac

/-- Witness for c5_amended: an adapter answering NO DATA to every mode
completes the read with all three commands sent, in order. -/
theorem c5_amended_witness :
    (scanner_read_dtcs (fun _ => "") true true (fun _ => .ok ["NO DATA"])).2.1
      = ["03", "07", "0A"] :=
  ((c5_amended (fun _ => "") true true (fun _ => .ok ["NO DATA"])).2 [] (by decide)).1

end OBD
